import Mathlib

/-!
Verification of the ECI shipping service (src/main.py) against its
natural-language specification.  The Python source is shallowly embedded:
pure helpers become Lean functions, the SQLAlchemy-backed state becomes an
explicit `DB` record threaded through each endpoint, machine integers
become `Nat`/`Int`, and raised `HTTPException`s become `Except` errors
paired with the state as committed at the moment of the raise.
-/

/-! ## JSON values and `json.dumps(data, sort_keys=True)`

`compute_request_hash` (main.py:217-220) serializes the request dict with
`json.dumps(data, sort_keys=True)` and hashes the bytes with SHA-256.
`JsonVal` models Python values that appear in request payloads; `dumps`
models the canonical serialization: default separators (", " and ": "),
object keys sorted lexicographically at every nesting level. -/

inductive JsonVal where
  | null : JsonVal
  | bool : Bool → JsonVal
  | num : Int → JsonVal
  | str : String → JsonVal
  | arr : List JsonVal → JsonVal
  | obj : List (String × JsonVal) → JsonVal

/-- Hex digit characters, lowercase (as Python produces). -/
def hexChar (n : Nat) : Char :=
  if n < 10 then Char.ofNat (48 + n) else Char.ofNat (87 + n)

/-- JSON string escaping as performed by `json.dumps` (quote, backslash and
control characters; payload strings here are plain ASCII). -/
def jsonEscapeChar (c : Char) : String :=
  if c = Char.ofNat 34 then String.mk [Char.ofNat 92, Char.ofNat 34]
  else if c = Char.ofNat 92 then String.mk [Char.ofNat 92, Char.ofNat 92]
  else if c.toNat ≥ 32 then String.mk [c]
  else if c = Char.ofNat 10 then String.mk [Char.ofNat 92, Char.ofNat 110]
  else if c = Char.ofNat 9 then String.mk [Char.ofNat 92, Char.ofNat 116]
  else if c = Char.ofNat 13 then String.mk [Char.ofNat 92, Char.ofNat 114]
  else String.mk [Char.ofNat 92, Char.ofNat 117, Char.ofNat 48, Char.ofNat 48,
    hexChar (c.toNat / 16), hexChar (c.toNat % 16)]

/-- A JSON string literal: quoted and escaped. -/
def jsonQuote (s : String) : String :=
  String.mk [Char.ofNat 34] ++ String.join (s.data.map jsonEscapeChar)
    ++ String.mk [Char.ofNat 34]

/-- Object entries are emitted in sorted key order (`sort_keys=True`);
Python compares `str` keys lexicographically by code point, which is the
`String` order used here. -/
def sortByKey (l : List (String × JsonVal)) : List (String × JsonVal) :=
  l.mergeSort (fun a b => a.1 ≤ b.1)

/-- `json.dumps(v, sort_keys=True)` with the default separators. -/
def dumps : JsonVal → String
  | .null => "null"
  | .bool b => if b then "true" else "false"
  | .num n => toString n
  | .str s => jsonQuote s
  | .arr xs =>
    "[" ++ String.intercalate ", "
      (xs.attach.map (fun x => dumps x.1)) ++ "]"
  | .obj kvs =>
    "\x7b" ++ String.intercalate ", "
      ((sortByKey kvs).attach.map
        (fun kv => jsonQuote kv.1.1 ++ ": " ++ dumps kv.1.2)) ++ "\x7d"
termination_by v => sizeOf v
decreasing_by
  · have := List.sizeOf_lt_of_mem x.2
    simp only [JsonVal.arr.sizeOf_spec]
    omega
  · have h1 : kv.1 ∈ kvs := by
      have hp : List.Perm (sortByKey kvs) kvs := List.mergeSort_perm kvs _
      exact hp.mem_iff.mp kv.2
    have h2 := List.sizeOf_lt_of_mem h1
    have h3 : sizeOf kv.1.2 < sizeOf kv.1 := by
      obtain ⟨a, b⟩ := kv.1
      simp [Prod.mk.sizeOf_spec]
    simp only [JsonVal.obj.sizeOf_spec]
    omega

/-! ## SHA-256 (`hashlib.sha256(...).hexdigest()`)

Faithful implementation over `Nat` with explicit `% 2^32`; message bytes
are the UTF-8 encoding of the serialized payload. -/

/-- 32-bit right rotation. -/
def rotr32 (x n : Nat) : Nat :=
  ((x >>> n) ||| (x <<< (32 - n))) % 4294967296

/-- SHA-256 round constants (first 32 bits of the fractional parts of the
cube roots of the first 64 primes). -/
def sha256K : List Nat :=
  [1116352408, 1899447441, 3049323471, 3921009573, 961987163, 1508970993,
   2453635748, 2870763221, 3624381080, 310598401, 607225278, 1426881987,
   1925078388, 2162078206, 2614888103, 3248222580, 3835390401, 4022224774,
   264347078, 604807628, 770255983, 1249150122, 1555081692, 1996064986,
   2554220882, 2821834349, 2952996808, 3210313671, 3336571891, 3584528711,
   113926993, 338241895, 666307205, 773529912, 1294757372, 1396182291,
   1695183700, 1986661051, 2177026350, 2456956037, 2730485921, 2820302411,
   3259730800, 3345764771, 3516065817, 3600352804, 4094571909, 275423344,
   430227734, 506948616, 659060556, 883997877, 958139571, 1322822218,
   1537002063, 1747873779, 1955562222, 2024104815, 2227730452, 2361852424,
   2428436474, 2756734187, 3204031479, 3329325298]

/-- SHA-256 initial hash state. -/
def sha256Init : List Nat :=
  [1779033703, 3144134277, 1013904242, 2773480762, 1359893119, 2600822924,
   528734635, 1541459225]

/-- Message padding: append 0x80, zeros, then the 64-bit big-endian bit
length, to a multiple of 64 bytes. -/
def sha256Pad (msg : List Nat) : List Nat :=
  let L := msg.length
  let k := (120 - (L + 1) % 64) % 64
  msg ++ [128] ++ List.replicate k 0
    ++ (List.range 8).map (fun i => ((8 * L) >>> ((7 - i) * 8)) % 256)

/-- Big-endian 4-byte groups to 32-bit words. -/
def bytesToWords (bs : List Nat) : List Nat :=
  (List.range (bs.length / 4)).map (fun i =>
    (bs.getD (4 * i) 0) * 16777216 + (bs.getD (4 * i + 1) 0) * 65536
      + (bs.getD (4 * i + 2) 0) * 256 + bs.getD (4 * i + 3) 0)

/-- Message-schedule extension from 16 to 64 words. -/
def extendWords (ws : List Nat) : List Nat :=
  (List.range 48).foldl (fun ws _ =>
    let n := ws.length
    let w15 := ws.getD (n - 15) 0
    let w2 := ws.getD (n - 2) 0
    let s0 := rotr32 w15 7 ^^^ rotr32 w15 18 ^^^ (w15 >>> 3)
    let s1 := rotr32 w2 17 ^^^ rotr32 w2 19 ^^^ (w2 >>> 10)
    ws ++ [(ws.getD (n - 16) 0 + s0 + ws.getD (n - 7) 0 + s1) % 4294967296]) ws

/-- One SHA-256 compression round on the working state `[a,b,c,d,e,f,g,h]`. -/
def sha256Round (st : List Nat) (k w : Nat) : List Nat :=
  match st with
  | [a, b, c, d, e, f, g, h] =>
    let S1 := rotr32 e 6 ^^^ rotr32 e 11 ^^^ rotr32 e 25
    let ch := (e &&& f) ^^^ ((e ^^^ 4294967295) &&& g)
    let t1 := (h + S1 + ch + k + w) % 4294967296
    let S0 := rotr32 a 2 ^^^ rotr32 a 13 ^^^ rotr32 a 22
    let maj := (a &&& b) ^^^ (a &&& c) ^^^ (b &&& c)
    let t2 := (S0 + maj) % 4294967296
    [(t1 + t2) % 4294967296, a, b, c, (d + t1) % 4294967296, e, f, g]
  | other => other

/-- Compress one 64-byte block into the hash state. -/
def sha256Block (h : List Nat) (block : List Nat) : List Nat :=
  let ws := extendWords (bytesToWords block)
  let st := (sha256K.zip ws).foldl (fun st kw => sha256Round st kw.1 kw.2) h
  (h.zip st).map (fun p => (p.1 + p.2) % 4294967296)

/-- SHA-256 of a byte sequence, as the list of eight 32-bit state words. -/
def sha256Words (msg : List Nat) : List Nat :=
  let padded := sha256Pad msg
  ((List.range (padded.length / 64)).map
    (fun i => (padded.drop (64 * i)).take 64)).foldl sha256Block sha256Init

/-- UTF-8 encoding of one character. -/
def utf8Char (c : Char) : List Nat :=
  let n := c.toNat
  if n < 128 then [n]
  else if n < 2048 then [192 + n / 64, 128 + n % 64]
  else if n < 65536 then [224 + n / 4096, 128 + (n / 64) % 64, 128 + n % 64]
  else [240 + n / 262144, 128 + (n / 4096) % 64, 128 + (n / 64) % 64,
    128 + n % 64]

/-- UTF-8 bytes of a string (`str.encode()`). -/
def utf8Bytes (s : String) : List Nat :=
  s.data.foldr (fun c acc => utf8Char c ++ acc) []

/-- 32-bit word to 8 lowercase hex characters, big-endian. -/
def wordToHex (n : Nat) : String :=
  String.mk ((List.range 8).map (fun i => hexChar ((n >>> ((7 - i) * 4)) % 16)))

/-- `hashlib.sha256(s.encode()).hexdigest()`. -/
def sha256Hex (s : String) : String :=
  String.join ((sha256Words (utf8Bytes s)).map wordToHex)

/-- main.py:217-220 — `compute_request_hash`: SHA-256 of the canonical
serialization of the request payload. -/
def compute_request_hash (data : JsonVal) : String :=
  sha256Hex (dumps data)

/-! ## Enumerations (main.py:87-101)

Statuses and carriers are `str` enums; every database write goes through
an enum member, so they are embedded as closed variants with their stable
string encoding `value`. -/

inductive ShipmentStatus where
  | PENDING | PACKED | SHIPPED | IN_TRANSIT | OUT_FOR_DELIVERY
  | DELIVERED | FAILED | CANCELLED
deriving DecidableEq, Repr

def ShipmentStatus.value : ShipmentStatus → String
  | .PENDING => "PENDING"
  | .PACKED => "PACKED"
  | .SHIPPED => "SHIPPED"
  | .IN_TRANSIT => "IN_TRANSIT"
  | .OUT_FOR_DELIVERY => "OUT_FOR_DELIVERY"
  | .DELIVERED => "DELIVERED"
  | .FAILED => "FAILED"
  | .CANCELLED => "CANCELLED"

inductive Carrier where
  | DHL | BLUEDART | FEDEX | DTDC
deriving DecidableEq, Repr

def Carrier.value : Carrier → String
  | .DHL => "DHL"
  | .BLUEDART => "Bluedart"
  | .FEDEX => "FedEx"
  | .DTDC => "DTDC"

/-! ## Records (main.py:104-137)

Timestamps (`datetime.utcnow()`) are embedded as `Nat` instants; all
`utcnow()` calls inside one request observe the same instant, passed to
the operation as `now`. -/

/-- `shipments` table row (main.py:104-114). -/
structure Shipment where
  shipment_id : Nat
  order_id : Int
  carrier : Carrier
  status : ShipmentStatus
  tracking_no : String
  shipped_at : Option Nat
  delivered_at : Option Nat
  created_at : Nat
  updated_at : Nat
deriving DecidableEq, Repr

/-- `shipment_events` table row (main.py:116-123). -/
structure ShipmentEvent where
  event_id : Nat
  shipment_id : Nat
  status : ShipmentStatus
  location : Option String
  description : Option String
  created_at : Nat
deriving DecidableEq, Repr

/-- Body of `CreateShipmentResponse` (main.py:159-165), which is also the
payload stored in and replayed from the idempotency table. -/
structure CreateResp where
  shipment_id : Nat
  order_id : Int
  carrier : Carrier
  status : ShipmentStatus
  tracking_no : String
  created_at : Nat
deriving DecidableEq, Repr

/-- `idempotency_keys` table row (main.py:125-137).  `response_data` is
stored serialized and replayed through `json.loads`; the round-trip is
elided by storing the response value itself. -/
structure IdemRec where
  key : String
  request_hash : String
  response : CreateResp
  created_at : Nat
  expires_at : Nat
deriving DecidableEq, Repr

/-- The database visible to the service: both tables plus the idempotency
table, with autoincrement counters for the integer primary keys. -/
structure DB where
  shipments : List Shipment
  events : List ShipmentEvent
  idem : List IdemRec
  nextShipmentId : Nat
  nextEventId : Nat
deriving DecidableEq, Repr

def DB.empty : DB := ⟨[], [], [], 1, 1⟩

/-- `HTTPException(status_code, detail)`. -/
structure HTTPError where
  status_code : Nat
  detail : String
deriving DecidableEq, Repr

/-- `CreateShipmentRequest` (main.py:148-157). -/
structure CreateShipmentRequest where
  order_id : Int
  carrier : Carrier
  shipping_address : Option JsonVal

/-- `request.dict()` as serialized by `compute_request_hash`: a `str` enum
member is JSON-encoded as its string value. -/
def reqJson (r : CreateShipmentRequest) : JsonVal :=
  .obj [("order_id", .num r.order_id), ("carrier", .str r.carrier.value),
        ("shipping_address", r.shipping_address.getD .null)]

/-- `UpdateStatusRequest` (main.py:167-170). -/
structure UpdateStatusRequest where
  status : ShipmentStatus
  location : Option String
  description : Option String
deriving DecidableEq, Repr

/-- `ShipmentResponse` (main.py:172-181). -/
structure ShipmentResp where
  shipment_id : Nat
  order_id : Int
  carrier : Carrier
  status : ShipmentStatus
  tracking_no : String
  shipped_at : Option Nat
  delivered_at : Option Nat
  created_at : Nat
  updated_at : Nat
deriving DecidableEq, Repr

def shipmentResp (s : Shipment) : ShipmentResp :=
  ⟨s.shipment_id, s.order_id, s.carrier, s.status, s.tracking_no,
   s.shipped_at, s.delivered_at, s.created_at, s.updated_at⟩

/-- `TrackingEvent` (main.py:183-188). -/
structure TrackingEvent where
  event_id : Nat
  status : ShipmentStatus
  location : Option String
  description : Option String
  created_at : Nat
deriving DecidableEq, Repr

/-- `TrackingResponse` (main.py:190-192). -/
structure TrackingResponse where
  shipment : ShipmentResp
  events : List TrackingEvent
deriving DecidableEq, Repr

/-! ## Helper functions (main.py:202-277) -/

/-- Python truthiness of the optional `Idempotency-Key` header: `None` and
the empty string are both falsy (`if not idempotency_key`). -/
def keyFalsy (key : Option String) : Bool :=
  match key with
  | none => true
  | some s => s == ""

/-- main.py:227-229 — lazy cleanup: delete (and commit) every idempotency
record with `expires_at < utcnow()`. -/
def cleanExpired (idem : List IdemRec) (now : Nat) : List IdemRec :=
  idem.filter (fun r => !(r.expires_at < now))

/-- main.py:222-243 — `check_idempotency`.  Returns the cached response for
a live record with matching fingerprint, raises 409 on a fingerprint
mismatch, otherwise `none`; paired with the database state as committed
(the expired-record cleanup is committed before any raise). -/
def check_idempotency (db : DB) (key : Option String) (request_data : JsonVal)
    (now : Nat) : Except HTTPError (Option CreateResp) × DB :=
  if keyFalsy key then (.ok none, db)
  else
    let db1 : DB := { db with idem := cleanExpired db.idem now }
    match db1.idem.find? (fun r => r.key == (key.getD "")) with
    | some existing =>
      if existing.request_hash == compute_request_hash request_data then
        (.ok (some existing.response), db1)
      else
        (.error ⟨409, "Idempotency key already used with different request data"⟩,
         db1)
    | none => (.ok none, db1)

/-- main.py:245-260 — `store_idempotency`: no-op for a falsy key, otherwise
insert a record expiring 24 hours (86400 seconds) later. -/
def store_idempotency (db : DB) (key : Option String) (request_data : JsonVal)
    (response : CreateResp) (now : Nat) : DB :=
  if keyFalsy key then db
  else
    { db with idem := db.idem ++
        [⟨key.getD "", compute_request_hash request_data, response, now,
          now + 86400⟩] }

/-- Exit condition of the `generate_tracking_number` retry loop
(main.py:203-210): the returned code matches no existing shipment. -/
def trackingFresh (db : DB) (tn : String) : Bool :=
  db.shipments.all (fun s => s.tracking_no != tn)

/-- ORM row update: the object returned by `.first()` is mutated in place,
i.e. the first list entry with the given primary key is replaced. -/
def setShipment : List Shipment → Nat → Shipment → List Shipment
  | [], _, _ => []
  | x :: xs, sid, s => if x.shipment_id == sid then s :: xs
                       else x :: setShipment xs sid s

/-- Python `a or b` on an optional string: `None` and `""` both fall
through to the default (main.py:503). -/
def pyOrDefault (d : Option String) (dflt : String) : String :=
  match d with
  | some s => if s == "" then dflt else s
  | none => dflt

/-- main.py:262-277 — `notify_inventory_release`: posts to the inventory
service and swallows every failure; only a log record distinguishes the
outcomes.  `ok` stands for the outcome of the HTTP call. -/
structure NotifyAttempt where
  order_id : Int
  reason : String
  succeeded : Bool
deriving DecidableEq, Repr

def notify_inventory_release (order_id : Int) (reason : String) (ok : Bool) :
    NotifyAttempt :=
  ⟨order_id, reason, ok⟩

/-! ## Endpoints -/

/-- Result of `POST /v1/shipments`: a fresh creation (201 via the route's
`status_code`) or an idempotent replay (201 via `JSONResponse`). -/
inductive CreateResult where
  | created (resp : CreateResp)
  | replayed (resp : CreateResp)
deriving DecidableEq, Repr

/-- HTTP status carried by a successful create result: the fresh path uses
the decorator's `status_code=201`, the replay path `JSONResponse(...,
status_code=201)` (main.py:307, 327). -/
def CreateResult.statusCode : CreateResult → Nat
  | .created _ => 201
  | .replayed _ => 201

def CreateResult.body : CreateResult → CreateResp
  | .created r => r
  | .replayed r => r

/-- main.py:307-391 — `create_shipment`.  `tn` is the tracking number
produced by `generate_tracking_number` (freshness is a hypothesis where it
matters, mirroring the loop's exit condition); `now` the request instant.
The returned `DB` is the state as committed when the call finishes or
raises. -/
def create_shipment (req : CreateShipmentRequest) (key : Option String)
    (tn : String) (now : Nat) (db : DB) :
    Except HTTPError CreateResult × DB :=
  match check_idempotency db key (reqJson req) now with
  | (.error e, db1) => (.error e, db1)
  | (.ok (some cached), db1) => (.ok (.replayed cached), db1)
  | (.ok none, db1) =>
    match db1.shipments.find? (fun s => s.order_id == req.order_id) with
    | some _ =>
      (.error ⟨409, "Shipment already exists for order " ++
        toString req.order_id⟩, db1)
    | none =>
      let sid := db1.nextShipmentId
      let shipment : Shipment :=
        ⟨sid, req.order_id, req.carrier, .PENDING, tn, none, none, now, now⟩
      let event : ShipmentEvent :=
        ⟨db1.nextEventId, sid, .PENDING, none, some "Shipment created", now⟩
      let resp : CreateResp :=
        ⟨sid, req.order_id, req.carrier, .PENDING, tn, now⟩
      let db2 : DB :=
        { db1 with shipments := db1.shipments ++ [shipment],
                   events := db1.events ++ [event],
                   nextShipmentId := sid + 1,
                   nextEventId := db1.nextEventId + 1 }
      (.ok (.created resp), store_idempotency db2 key (reqJson req) resp now)

/-- main.py:431-464 — `track_shipment`: look up by tracking number, list
the shipment's events ordered by `created_at` ascending (stable, ties in
insertion order). -/
def track_shipment (tn : String) (db : DB) : Except HTTPError TrackingResponse :=
  match db.shipments.find? (fun s => s.tracking_no == tn) with
  | none => .error ⟨404, "Shipment not found"⟩
  | some s =>
    let evs := (db.events.filter
        (fun e => e.shipment_id == s.shipment_id)).mergeSort
        (fun a b => a.created_at ≤ b.created_at)
    .ok ⟨shipmentResp s,
      evs.map (fun e =>
        ⟨e.event_id, e.status, e.location, e.description, e.created_at⟩)⟩

/-- main.py:466-535 — `update_shipment_status`: load, overwrite the status
unconditionally, stamp `shipped_at`/`delivered_at` on first entry into
`SHIPPED`/`DELIVERED`, append one tracking event. -/
def update_shipment_status (shipment_id : Nat) (req : UpdateStatusRequest)
    (now : Nat) (db : DB) : Except HTTPError ShipmentResp × DB :=
  match db.shipments.find? (fun s => s.shipment_id == shipment_id) with
  | none => (.error ⟨404, "Shipment not found"⟩, db)
  | some s =>
    let old_status := s.status
    let s1 := { s with status := req.status, updated_at := now }
    let s2 :=
      if req.status = .SHIPPED ∧ s1.shipped_at = none then
        { s1 with shipped_at := some now }
      else if req.status = .DELIVERED ∧ s1.delivered_at = none then
        { s1 with delivered_at := some now }
      else s1
    let event : ShipmentEvent :=
      ⟨db.nextEventId, shipment_id, req.status, req.location,
       some (pyOrDefault req.description
         ("Status updated from " ++ old_status.value ++ " to " ++
          req.status.value)), now⟩
    let db1 : DB :=
      { db with shipments := setShipment db.shipments shipment_id s2,
                events := db.events ++ [event],
                nextEventId := db.nextEventId + 1 }
    (.ok (shipmentResp s2), db1)

/-- Body of the cancel confirmation (main.py:576). -/
structure CancelResult where
  message : String
  shipment_id : Nat
deriving DecidableEq, Repr

/-- main.py:537-583 — `cancel_shipment`: 404 if absent, 400 if already
`DELIVERED`/`CANCELLED`, otherwise set `CANCELLED`, append the ledger
event, commit, then attempt the inventory-release notification (whose
outcome `notifyOk` the result does not depend on). -/
def cancel_shipment (shipment_id : Nat) (notifyOk : Bool) (now : Nat)
    (db : DB) : Except HTTPError CancelResult × DB × Option NotifyAttempt :=
  match db.shipments.find? (fun s => s.shipment_id == shipment_id) with
  | none => (.error ⟨404, "Shipment not found"⟩, db, none)
  | some s =>
    if s.status = .DELIVERED ∨ s.status = .CANCELLED then
      (.error ⟨400, "Cannot cancel shipment with status: " ++ s.status.value⟩,
       db, none)
    else
      let s1 := { s with status := ShipmentStatus.CANCELLED, updated_at := now }
      let event : ShipmentEvent :=
        ⟨db.nextEventId, shipment_id, .CANCELLED, none,
         some "Shipment cancelled", now⟩
      let db1 : DB :=
        { db with shipments := setShipment db.shipments shipment_id s1,
                  events := db.events ++ [event],
                  nextEventId := db.nextEventId + 1 }
      (.ok ⟨"Shipment cancelled successfully", shipment_id⟩, db1,
       some (notify_inventory_release s1.order_id "Shipment cancelled" notifyOk))

/-! ## Reachable states

States reachable from the empty store by the mutating endpoints, at
non-decreasing request instants.  The tracking-number hypothesis on the
create step is the exit condition of the `generate_tracking_number` loop. -/

inductive Reach : Nat → DB → Prop where
  | init (t0 : Nat) : Reach t0 DB.empty
  | create {t db} (req : CreateShipmentRequest) (key : Option String)
      (tn : String) {t1 : Nat} :
      Reach t db → t ≤ t1 → trackingFresh db tn = true →
      Reach t1 (create_shipment req key tn t1 db).2
  | update {t db} (sid : Nat) (req : UpdateStatusRequest) {t1 : Nat} :
      Reach t db → t ≤ t1 →
      Reach t1 (update_shipment_status sid req t1 db).2
  | cancel {t db} (sid : Nat) (ok : Bool) {t1 : Nat} :
      Reach t db → t ≤ t1 →
      Reach t1 (cancel_shipment sid ok t1 db).2.1

/-- One mutating endpoint invocation, for frame properties quantified over
all operations. -/
inductive ServiceOp where
  | create (req : CreateShipmentRequest) (key : Option String) (tn : String)
  | update (sid : Nat) (req : UpdateStatusRequest)
  | cancel (sid : Nat) (ok : Bool)

/-- The database state committed by one endpoint invocation. -/
def applyOp (op : ServiceOp) (now : Nat) (db : DB) : DB :=
  match op with
  | .create req key tn => (create_shipment req key tn now db).2
  | .update sid req => (update_shipment_status sid req now db).2
  | .cancel sid ok => (cancel_shipment sid ok now db).2.1

/-- The ledger restricted to one shipment, in insertion order. -/
def eventsFor (db : DB) (sid : Nat) : List ShipmentEvent :=
  db.events.filter (fun e => e.shipment_id == sid)

/-- Invariants maintained by every reachable state at instant `t`:
primary keys below the autoincrement counters, unique tracking numbers,
ledger timestamps bounded by `t` and non-decreasing in insertion order,
and the first ledger entry of every shipment recording `PENDING` (the
initial status every shipment is created with). -/
structure StoreInv (t : Nat) (db : DB) : Prop where
  sid_lt : ∀ s ∈ db.shipments, s.shipment_id < db.nextShipmentId
  esid_lt : ∀ e ∈ db.events, e.shipment_id < db.nextShipmentId
  track_nodup : (db.shipments.map Shipment.tracking_no).Nodup
  etime_le : ∀ e ∈ db.events, e.created_at ≤ t
  esorted : db.events.Pairwise (fun a b => a.created_at ≤ b.created_at)
  first_pending : ∀ s ∈ db.shipments,
    (eventsFor db s.shipment_id).head?.map ShipmentEvent.status =
      some ShipmentStatus.PENDING

/-! ## Concrete fixtures used by the witnesses -/

def sampleReq : CreateShipmentRequest := ⟨42, .DHL, none⟩

def sampleReqB : CreateShipmentRequest := ⟨43, .FEDEX, none⟩

/-- One freshly created `PENDING` shipment (no idempotency key). -/
def dbOne : DB := (create_shipment sampleReq none "TRK100001" 10 DB.empty).2

/-- The same shipment after a `DELIVERED` status update. -/
def dbDelivered : DB :=
  (update_shipment_status 1 ⟨.DELIVERED, none, none⟩ 20 dbOne).2

/-- A state whose idempotency table holds a live record for key "k1"
fingerprinting `sampleReqB`. -/
def dbKeyed : DB :=
  (create_shipment sampleReqB (some "k1") "TRK100002" 10 DB.empty).2

/-- A state holding a live idempotency record for key "k1" whose stored
fingerprint is a 17-character placeholder (so it can match no SHA-256 hex
digest, which always has 64 characters). -/
def dbStale : DB :=
  ⟨[], [],
   [⟨"k1", "not-a-real-digest", ⟨9, 43, .FEDEX, .PENDING, "TRK100009", 5⟩,
     5, 999999⟩], 1, 1⟩

/-! ## Helper lemmas -/

/-- Replacing the row returned by `.first()` decomposes the table around
the first matching entry. -/
theorem setShipment_decomp {l : List Shipment} {sid : Nat} {s : Shipment}
    (v : Shipment) (h : l.find? (fun x => x.shipment_id == sid) = some s) :
    ∃ l1 l2, l = l1 ++ s :: l2 ∧ setShipment l sid v = l1 ++ v :: l2 ∧
      ∀ x ∈ l1, (x.shipment_id == sid) = false := by
  induction l with
  | nil => simp at h
  | cons x xs ih =>
    rw [List.find?_cons] at h
    cases hx : (x.shipment_id == sid) with
    | true =>
      rw [hx] at h
      have hs : s = x := by
        simp at h
        exact h.symm
      exact ⟨[], xs, by simp [hs], by simp [setShipment, hx], by simp⟩
    | false =>
      rw [hx] at h
      simp only [cond_false] at h
      obtain ⟨l1, l2, he, hset, hall⟩ := ih h
      refine ⟨x :: l1, l2, by simp [he], by simp [setShipment, hx, hset], ?_⟩
      intro y hy
      rcases List.mem_cons.mp hy with rfl | hy
      · exact hx
      · exact hall y hy

theorem find?_setShipment_self {l : List Shipment} {sid : Nat} {s : Shipment}
    (v : Shipment) (h : l.find? (fun x => x.shipment_id == sid) = some s)
    (hv : v.shipment_id = s.shipment_id) :
    (setShipment l sid v).find? (fun x => x.shipment_id == sid) = some v := by
  obtain ⟨l1, l2, he, hset, hall⟩ := setShipment_decomp v h
  have hp : (s.shipment_id == sid) = true := by
    simpa using List.find?_some h
  have h1 : l1.find? (fun x => x.shipment_id == sid) = none :=
    List.find?_eq_none.mpr (fun x hx => by simp [hall x hx])
  rw [hset, List.find?_append, h1]
  have hvp : (v.shipment_id == sid) = true := by rw [hv]; exact hp
  simp [List.find?_cons, hvp]

theorem find?_setShipment_other {l : List Shipment} {sid sid2 : Nat}
    {s : Shipment} (v : Shipment)
    (h : l.find? (fun x => x.shipment_id == sid2) = some s)
    (hv : v.shipment_id = s.shipment_id) (hne : sid ≠ sid2) :
    (setShipment l sid2 v).find? (fun x => x.shipment_id == sid) =
      l.find? (fun x => x.shipment_id == sid) := by
  obtain ⟨l1, l2, he, hset, hall⟩ := setShipment_decomp v h
  have hp : (s.shipment_id == sid2) = true := by
    simpa using List.find?_some h
  have hsid : s.shipment_id = sid2 := by simpa using hp
  have hsp : (s.shipment_id == sid) = false := by
    simp [hsid]
    exact fun hc => hne hc.symm
  have hvp : (v.shipment_id == sid) = false := by rw [hv]; exact hsp
  rw [hset, he, List.find?_append, List.find?_append]
  rw [List.find?_cons, List.find?_cons, hvp, hsp]

theorem map_setShipment {l : List Shipment} {sid : Nat} {s : Shipment}
    (f : Shipment → α) (v : Shipment)
    (h : l.find? (fun x => x.shipment_id == sid) = some s) (hv : f v = f s) :
    (setShipment l sid v).map f = l.map f := by
  obtain ⟨l1, l2, he, hset, hall⟩ := setShipment_decomp v h
  rw [hset, he]
  simp [hv]

/-! ## Digest shape: a SHA-256 hex digest always has 64 characters -/

theorem sha256Round_length (st : List Nat) (k w : Nat) :
    (sha256Round st k w).length = st.length := by
  unfold sha256Round
  split <;> simp

theorem foldl_round_length (l : List (Nat × Nat)) (st : List Nat) :
    (l.foldl (fun st kw => sha256Round st kw.1 kw.2) st).length = st.length := by
  induction l generalizing st with
  | nil => rfl
  | cons x xs ih => rw [List.foldl_cons, ih, sha256Round_length]

theorem sha256Block_length (h b : List Nat) (hh : h.length = 8) :
    (sha256Block h b).length = 8 := by
  unfold sha256Block
  simp [foldl_round_length, hh]

theorem foldl_block_length (bs : List (List Nat)) (h : List Nat)
    (hh : h.length = 8) : (bs.foldl sha256Block h).length = 8 := by
  induction bs generalizing h with
  | nil => exact hh
  | cons b rest ih => exact ih _ (sha256Block_length h b hh)

theorem sha256Words_length (msg : List Nat) : (sha256Words msg).length = 8 := by
  unfold sha256Words
  exact foldl_block_length _ _ (by simp [sha256Init])

theorem wordToHex_length (n : Nat) : (wordToHex n).length = 8 := by
  simp [wordToHex, String.length]

theorem foldl_append_length (l : List String) (a : String) :
    (l.foldl (fun r s => r ++ s) a).length =
      a.length + (l.map String.length).sum := by
  induction l generalizing a with
  | nil => simp
  | cons x xs ih => simp [ih]; omega

theorem sha256Hex_length (s : String) : (sha256Hex s).length = 64 := by
  unfold sha256Hex
  rw [String.join, foldl_append_length]
  have h1 : ((sha256Words (utf8Bytes s)).map wordToHex).map String.length =
      (sha256Words (utf8Bytes s)).map (fun _ => 8) := by
    rw [List.map_map]
    exact List.map_congr_left (fun x _ => wordToHex_length x)
  rw [h1, List.map_const']
  simp [sha256Words_length, List.sum_replicate]

theorem compute_request_hash_length (d : JsonVal) :
    (compute_request_hash d).length = 64 :=
  sha256Hex_length _

/-! ## Claims -/

/-- C9: a create call whose idempotency key is the empty string behaves
exactly as if no key were supplied — `if not idempotency_key` treats `""`
as absent, so no replay lookup, no conflict check, no cleanup, and no
stored record (the resulting idempotency table is unchanged): deduplication
is disabled for that call. -/
theorem C9_empty_key_disables_deduplication (req : CreateShipmentRequest)
    (tn : String) (now : Nat) (db : DB) :
    create_shipment req (some "") tn now db =
      create_shipment req none tn now db ∧
    (create_shipment req none tn now db).2.idem = db.idem := by
  constructor
  · rfl
  · unfold create_shipment check_idempotency
    simp only [keyFalsy]
    cases hf : db.shipments.find? (fun s => s.order_id == req.order_id) <;>
      simp [hf, store_idempotency, keyFalsy]

/-- C1 is refuted by the code: `update_shipment_status` performs no
terminal-state check, so an update-status request against a `DELIVERED`
shipment succeeds and overwrites the status instead of failing with
`InvalidTransition`.  Here the shipment with id 1 is `DELIVERED`, yet an
`IN_TRANSIT` update returns 200 with the new status applied. -/
theorem C1_update_from_delivered_succeeds :
    (dbDelivered.shipments.find? (fun s => s.shipment_id == 1)).map
      Shipment.status = some .DELIVERED ∧
    (update_shipment_status 1 ⟨.IN_TRANSIT, none, none⟩ 30 dbDelivered).1 =
      .ok ⟨1, 42, .DHL, .IN_TRANSIT, "TRK100001", none, some 20, 10, 30⟩ ∧
    ((update_shipment_status 1 ⟨.IN_TRANSIT, none, none⟩ 30
        dbDelivered).2.shipments.find? (fun s => s.shipment_id == 1)).map
      Shipment.status = some .IN_TRANSIT :=
  ⟨rfl, rfl, rfl⟩

/-- C1 (amended): for a shipment in `DELIVERED` or `CANCELLED`, a cancel
request fails with `InvalidTransition` (HTTP 400) and leaves the state
(status, timestamps, ledger) unchanged; update-status requests, however,
are not rejected from terminal states — the code applies them without any
terminal check (see the counterexample). -/
theorem C1_cancel_from_terminal_rejected (sid : Nat) (ok : Bool) (now : Nat)
    (db : DB) (s : Shipment)
    (hfind : db.shipments.find? (fun x => x.shipment_id == sid) = some s)
    (hterm : s.status = .DELIVERED ∨ s.status = .CANCELLED) :
    cancel_shipment sid ok now db =
      (.error ⟨400, "Cannot cancel shipment with status: " ++ s.status.value⟩,
       db, none) := by
  unfold cancel_shipment
  rw [hfind]
  simp [hterm]

theorem C1_cancel_from_terminal_rejected_witness :
    cancel_shipment 1 true 30 dbDelivered =
      (.error ⟨400, "Cannot cancel shipment with status: " ++
        ShipmentStatus.DELIVERED.value⟩, dbDelivered, none) :=
  C1_cancel_from_terminal_rejected 1 true 30 dbDelivered
    ⟨1, 42, .DHL, .DELIVERED, "TRK100001", none, some 20, 10, 20⟩
    rfl (Or.inl rfl)

/-- C6: for a shipment that is neither `DELIVERED` nor `CANCELLED`, cancel
succeeds: status becomes `CANCELLED`, exactly one ledger event with
description "Shipment cancelled" is appended, and the inventory-release
notification is attempted after the mutation commits; the notification
outcome never changes the caller result or the committed state.  For a
terminal shipment it fails with `InvalidTransition` (HTTP 400) leaving the
state unchanged. -/
theorem C6_cancel_behaviour (sid : Nat) (ok ok2 : Bool) (now : Nat) (db : DB)
    (s : Shipment)
    (hfind : db.shipments.find? (fun x => x.shipment_id == sid) = some s) :
    (s.status ≠ .DELIVERED → s.status ≠ .CANCELLED →
      cancel_shipment sid ok now db =
        (.ok ⟨"Shipment cancelled successfully", sid⟩,
         { db with
             shipments := setShipment db.shipments sid
               { s with status := .CANCELLED, updated_at := now },
             events := db.events ++
               [⟨db.nextEventId, sid, .CANCELLED, none,
                 some "Shipment cancelled", now⟩],
             nextEventId := db.nextEventId + 1 },
         some ⟨s.order_id, "Shipment cancelled", ok⟩)) ∧
    ((cancel_shipment sid ok now db).1 = (cancel_shipment sid ok2 now db).1 ∧
     (cancel_shipment sid ok now db).2.1 =
       (cancel_shipment sid ok2 now db).2.1) ∧
    (s.status = .DELIVERED ∨ s.status = .CANCELLED →
      cancel_shipment sid ok now db =
        (.error ⟨400, "Cannot cancel shipment with status: " ++ s.status.value⟩,
         db, none)) := by
  refine ⟨?_, ?_, ?_⟩
  · intro h1 h2
    unfold cancel_shipment
    rw [hfind]
    dsimp only
    rw [if_neg (by tauto)]
    rfl
  · constructor <;>
      (unfold cancel_shipment; rw [hfind]; dsimp only; split <;> rfl)
  · intro hterm
    unfold cancel_shipment
    rw [hfind]
    dsimp only
    rw [if_pos hterm]

theorem C6_cancel_behaviour_witness :
    cancel_shipment 1 false 50 dbOne =
      (.ok ⟨"Shipment cancelled successfully", 1⟩,
       { dbOne with
           shipments := setShipment dbOne.shipments 1
             ⟨1, 42, .DHL, .CANCELLED, "TRK100001", none, none, 10, 50⟩,
           events := dbOne.events ++
             [⟨2, 1, .CANCELLED, none, some "Shipment cancelled", 50⟩],
           nextEventId := 3 },
       some ⟨42, "Shipment cancelled", false⟩) :=
  (C6_cancel_behaviour 1 false true 50 dbOne
    ⟨1, 42, .DHL, .PENDING, "TRK100001", none, none, 10, 10⟩ rfl).1
    (by decide) (by decide)

/-- C10: a successful update-status call leaves the shipment's `order_id`,
`carrier`, `tracking_no` and `created_at` unchanged, modifies no existing
ledger event and deletes none (the new ledger is the old one with exactly
one event appended), and that event's description defaults to
"Status updated from old to new" when the caller supplies none. -/
theorem C10_update_frame (sid : Nat) (req : UpdateStatusRequest) (now : Nat)
    (db : DB) (s : Shipment)
    (hfind : db.shipments.find? (fun x => x.shipment_id == sid) = some s) :
    ∃ s2,
      (update_shipment_status sid req now db).1 = .ok (shipmentResp s2) ∧
      (update_shipment_status sid req now db).2.shipments =
        setShipment db.shipments sid s2 ∧
      s2.shipment_id = s.shipment_id ∧
      s2.order_id = s.order_id ∧ s2.carrier = s.carrier ∧
      s2.tracking_no = s.tracking_no ∧ s2.created_at = s.created_at ∧
      (update_shipment_status sid req now db).2.events = db.events ++
        [⟨db.nextEventId, sid, req.status, req.location,
          some (pyOrDefault req.description
            ("Status updated from " ++ s.status.value ++ " to " ++
             req.status.value)), now⟩] ∧
      (req.description = none →
        pyOrDefault req.description
          ("Status updated from " ++ s.status.value ++ " to " ++
           req.status.value) =
        "Status updated from " ++ s.status.value ++ " to " ++
          req.status.value) := by
  unfold update_shipment_status
  rw [hfind]
  refine ⟨_, rfl, rfl, ?_, ?_, ?_, ?_, ?_, rfl, ?_⟩
  · split
    · rfl
    · split <;> rfl
  · split
    · rfl
    · split <;> rfl
  · split
    · rfl
    · split <;> rfl
  · split
    · rfl
    · split <;> rfl
  · split
    · rfl
    · split <;> rfl
  · intro h
    rw [h]
    rfl

theorem C10_update_frame_witness :
    ∃ s2,
      (update_shipment_status 1 ⟨.PACKED, none, none⟩ 15 dbOne).1 =
        .ok (shipmentResp s2) ∧
      (update_shipment_status 1 ⟨.PACKED, none, none⟩ 15 dbOne).2.shipments =
        setShipment dbOne.shipments 1 s2 ∧
      s2.shipment_id = 1 ∧ s2.order_id = 42 ∧ s2.carrier = .DHL ∧
      s2.tracking_no = "TRK100001" ∧ s2.created_at = 10 ∧
      (update_shipment_status 1 ⟨.PACKED, none, none⟩ 15 dbOne).2.events =
        dbOne.events ++
        [⟨2, 1, .PACKED, none,
          some (pyOrDefault none
            ("Status updated from " ++ ShipmentStatus.PENDING.value ++ " to " ++
             ShipmentStatus.PACKED.value)), 15⟩] ∧
      ((none : Option String) = none →
        pyOrDefault none
          ("Status updated from " ++ ShipmentStatus.PENDING.value ++ " to " ++
           ShipmentStatus.PACKED.value) =
        "Status updated from " ++ ShipmentStatus.PENDING.value ++ " to " ++
          ShipmentStatus.PACKED.value) :=
  C10_update_frame 1 ⟨.PACKED, none, none⟩ 15 dbOne
    ⟨1, 42, .DHL, .PENDING, "TRK100001", none, none, 10, 10⟩ rfl

theorem check_idempotency_state (db : DB) (key : Option String) (j : JsonVal)
    (now : Nat) :
    (check_idempotency db key j now).2.shipments = db.shipments ∧
    (check_idempotency db key j now).2.events = db.events ∧
    (check_idempotency db key j now).2.nextShipmentId = db.nextShipmentId ∧
    (check_idempotency db key j now).2.nextEventId = db.nextEventId := by
  unfold check_idempotency
  split
  · exact ⟨rfl, rfl, rfl, rfl⟩
  · dsimp only
    split
    · split <;> exact ⟨rfl, rfl, rfl, rfl⟩
    · exact ⟨rfl, rfl, rfl, rfl⟩

theorem store_idempotency_state (db : DB) (key : Option String) (j : JsonVal)
    (resp : CreateResp) (now : Nat) :
    (store_idempotency db key j resp now).shipments = db.shipments ∧
    (store_idempotency db key j resp now).events = db.events := by
  unfold store_idempotency
  split <;> exact ⟨rfl, rfl⟩

/-- A create call either leaves the shipments table unchanged (replay or
error) or appends exactly one row. -/
theorem create_shipments_cases (req : CreateShipmentRequest)
    (key : Option String) (tn : String) (now : Nat) (db : DB) :
    (create_shipment req key tn now db).2.shipments = db.shipments ∨
    ∃ x, (create_shipment req key tn now db).2.shipments =
      db.shipments ++ [x] := by
  have hck := (check_idempotency_state db key (reqJson req) now).1
  unfold create_shipment
  cases hc : check_idempotency db key (reqJson req) now with
  | mk r1 db1 =>
    rw [hc] at hck
    cases r1 with
    | error e => left; exact hck
    | ok o =>
      cases o with
      | some cached => left; exact hck
      | none =>
        dsimp only
        cases hf : db1.shipments.find? (fun s => s.order_id == req.order_id) with
        | some v => left; exact hck
        | none =>
          right
          have hck2 : db1.shipments = db.shipments := hck
          refine ⟨⟨db1.nextShipmentId, req.order_id, req.carrier, .PENDING,
            tn, none, none, now, now⟩, ?_⟩
          rw [(store_idempotency_state _ key (reqJson req) _ now).1]
          dsimp only
          rw [hck2]

/-- C4: `shipped_at` is written at most once, and only by an update-status
operation requesting `SHIPPED` while it is still unset; likewise
`delivered_at` for `DELIVERED`.  Over every endpoint invocation, a stored
shipment's timestamp either survives unchanged, or goes from unset to the
current instant under exactly such an update. -/
theorem C4_timestamps_written_once (op : ServiceOp) (now : Nat) (db : DB)
    (sid : Nat) (s : Shipment)
    (hfind : db.shipments.find? (fun x => x.shipment_id == sid) = some s) :
    ∃ s2, (applyOp op now db).shipments.find?
        (fun x => x.shipment_id == sid) = some s2 ∧
      (s2.shipped_at = s.shipped_at ∨
        (s.shipped_at = none ∧ s2.shipped_at = some now ∧
         ∃ r, op = .update sid r ∧ r.status = .SHIPPED)) ∧
      (s2.delivered_at = s.delivered_at ∨
        (s.delivered_at = none ∧ s2.delivered_at = some now ∧
         ∃ r, op = .update sid r ∧ r.status = .DELIVERED)) := by
  cases op with
  | create req key tn =>
    refine ⟨s, ?_, Or.inl rfl, Or.inl rfl⟩
    show (create_shipment req key tn now db).2.shipments.find? _ = some s
    rcases create_shipments_cases req key tn now db with h | ⟨x, h⟩
    · rw [h, hfind]
    · rw [h, List.find?_append, hfind]
      rfl
  | update sid2 req =>
    show ∃ s2, (update_shipment_status sid2 req now db).2.shipments.find? _ =
      some s2 ∧ _
    cases hf2 : db.shipments.find? (fun x => x.shipment_id == sid2) with
    | none =>
      unfold update_shipment_status
      rw [hf2]
      exact ⟨s, hfind, Or.inl rfl, Or.inl rfl⟩
    | some t =>
      unfold update_shipment_status
      rw [hf2]
      dsimp only
      by_cases hsid : sid = sid2
      · subst hsid
        have hts : t = s := by
          rw [hfind] at hf2
          exact (Option.some.inj hf2).symm
        subst hts
        refine ⟨_, find?_setShipment_self _ hfind ?_, ?_, ?_⟩
        · split
          · rfl
          · split <;> rfl
        · split
          · rename_i h
            exact Or.inr ⟨h.2, rfl, req, rfl, h.1⟩
          · left
            split <;> rfl
        · split
          · exact Or.inl rfl
          · split
            · rename_i h1 h
              exact Or.inr ⟨h.2, rfl, req, rfl, h.1⟩
            · exact Or.inl rfl
      · refine ⟨s, ?_, Or.inl rfl, Or.inl rfl⟩
        rw [find?_setShipment_other _ hf2 ?_ hsid]
        · exact hfind
        · split
          · rfl
          · split <;> rfl
  | cancel sid2 ok =>
    show ∃ s2, (cancel_shipment sid2 ok now db).2.1.shipments.find? _ =
      some s2 ∧ _
    cases hf2 : db.shipments.find? (fun x => x.shipment_id == sid2) with
    | none =>
      unfold cancel_shipment
      rw [hf2]
      exact ⟨s, hfind, Or.inl rfl, Or.inl rfl⟩
    | some t =>
      unfold cancel_shipment
      rw [hf2]
      dsimp only
      by_cases hterm : t.status = .DELIVERED ∨ t.status = .CANCELLED
      · rw [if_pos hterm]
        exact ⟨s, hfind, Or.inl rfl, Or.inl rfl⟩
      · rw [if_neg hterm]
        dsimp only
        by_cases hsid : sid = sid2
        · subst hsid
          have hts : t = s := by
            rw [hfind] at hf2
            exact (Option.some.inj hf2).symm
          subst hts
          exact ⟨_, find?_setShipment_self _ hfind rfl, Or.inl rfl, Or.inl rfl⟩
        · refine ⟨s, ?_, Or.inl rfl, Or.inl rfl⟩
          rw [find?_setShipment_other
            { t with status := ShipmentStatus.CANCELLED, updated_at := now }
            hf2 rfl hsid]
          exact hfind

theorem C4_timestamps_written_once_witness :
    ∃ s2, (applyOp (.update 1 ⟨.SHIPPED, none, none⟩) 25 dbOne).shipments.find?
        (fun x => x.shipment_id == 1) = some s2 ∧
      (s2.shipped_at = (none : Option Nat) ∨
        ((none : Option Nat) = none ∧ s2.shipped_at = some 25 ∧
         ∃ r, ServiceOp.update 1 ⟨.SHIPPED, none, none⟩ = .update 1 r ∧
           r.status = .SHIPPED)) ∧
      (s2.delivered_at = (none : Option Nat) ∨
        ((none : Option Nat) = none ∧ s2.delivered_at = some 25 ∧
         ∃ r, ServiceOp.update 1 ⟨.SHIPPED, none, none⟩ = .update 1 r ∧
           r.status = .DELIVERED)) :=
  C4_timestamps_written_once (.update 1 ⟨.SHIPPED, none, none⟩) 25 dbOne 1
    ⟨1, 42, .DHL, .PENDING, "TRK100001", none, none, 10, 10⟩ rfl

/-- C5: when the idempotency guard finds nothing (`check_idempotency`
returned `none`, committing only its lazy expiry cleanup, which touches
neither shipments nor events), create fails with `DuplicateOrder` (409)
writing nothing if a shipment already exists for the order reference;
otherwise it commits exactly one new `PENDING` shipment together with
exactly one initial ledger event recording `PENDING`, as one atomic
unit. -/
theorem C5_create_duplicate_or_fresh (req : CreateShipmentRequest)
    (key : Option String) (tn : String) (now : Nat) (db db1 : DB)
    (hcheck : check_idempotency db key (reqJson req) now = (.ok none, db1)) :
    db1.shipments = db.shipments ∧ db1.events = db.events ∧
    (∀ v, db1.shipments.find? (fun x => x.order_id == req.order_id) = some v →
      create_shipment req key tn now db =
        (.error ⟨409, "Shipment already exists for order " ++
          toString req.order_id⟩, db1)) ∧
    (db1.shipments.find? (fun x => x.order_id == req.order_id) = none →
      (create_shipment req key tn now db).1 =
        .ok (.created ⟨db1.nextShipmentId, req.order_id, req.carrier,
          .PENDING, tn, now⟩) ∧
      (create_shipment req key tn now db).2.shipments =
        db.shipments ++ [⟨db1.nextShipmentId, req.order_id, req.carrier,
          .PENDING, tn, none, none, now, now⟩] ∧
      (create_shipment req key tn now db).2.events =
        db.events ++ [⟨db1.nextEventId, db1.nextShipmentId, .PENDING, none,
          some "Shipment created", now⟩]) := by
  have hsnd : (check_idempotency db key (reqJson req) now).2 = db1 :=
    congrArg Prod.snd hcheck
  have hst := check_idempotency_state db key (reqJson req) now
  rw [hsnd] at hst
  refine ⟨hst.1, hst.2.1, ?_, ?_⟩
  · intro v hdup
    unfold create_shipment
    rw [hcheck]
    dsimp only
    rw [hdup]
  · intro hnone
    unfold create_shipment
    rw [hcheck]
    dsimp only
    rw [hnone]
    dsimp only
    refine ⟨rfl, ?_, ?_⟩
    · rw [(store_idempotency_state _ key (reqJson req) _ now).1]
      dsimp only
      rw [hst.1]
    · rw [(store_idempotency_state _ key (reqJson req) _ now).2]
      dsimp only
      rw [hst.2.1]

theorem C5_create_duplicate_or_fresh_witness :
    DB.empty.shipments = DB.empty.shipments ∧
    DB.empty.events = DB.empty.events ∧
    (∀ v, DB.empty.shipments.find?
        (fun x => x.order_id == sampleReq.order_id) = some v →
      create_shipment sampleReq none "TRK100001" 10 DB.empty =
        (.error ⟨409, "Shipment already exists for order " ++
          toString sampleReq.order_id⟩, DB.empty)) ∧
    (DB.empty.shipments.find?
        (fun x => x.order_id == sampleReq.order_id) = none →
      (create_shipment sampleReq none "TRK100001" 10 DB.empty).1 =
        .ok (.created ⟨DB.empty.nextShipmentId, sampleReq.order_id,
          sampleReq.carrier, .PENDING, "TRK100001", 10⟩) ∧
      (create_shipment sampleReq none "TRK100001" 10 DB.empty).2.shipments =
        DB.empty.shipments ++ [⟨DB.empty.nextShipmentId, sampleReq.order_id,
          sampleReq.carrier, .PENDING, "TRK100001", none, none, 10, 10⟩] ∧
      (create_shipment sampleReq none "TRK100001" 10 DB.empty).2.events =
        DB.empty.events ++ [⟨DB.empty.nextEventId, DB.empty.nextShipmentId,
          .PENDING, none, some "Shipment created", 10⟩]) :=
  C5_create_duplicate_or_fresh sampleReq none "TRK100001" 10 DB.empty
    DB.empty rfl

/-- C3: when a live idempotency record exists under the supplied key and
the incoming payload's fingerprint differs from the stored one, create
fails with `IdempotencyConflict` (409); no shipment or event is written and
the stored record survives unchanged under its key (only the lazy expiry
cleanup is committed). -/
theorem C3_idempotency_conflict (req : CreateShipmentRequest)
    (key : Option String) (tn : String) (now : Nat) (db : DB) (r : IdemRec)
    (hkey : keyFalsy key = false)
    (hfind : (cleanExpired db.idem now).find?
      (fun x => x.key == key.getD "") = some r)
    (hhash : r.request_hash ≠ compute_request_hash (reqJson req)) :
    create_shipment req key tn now db =
      (.error ⟨409, "Idempotency key already used with different request data"⟩,
       { db with idem := cleanExpired db.idem now }) ∧
    ({ db with idem := cleanExpired db.idem now } : DB).shipments =
      db.shipments ∧
    ({ db with idem := cleanExpired db.idem now } : DB).events = db.events ∧
    ({ db with idem := cleanExpired db.idem now } : DB).idem.find?
      (fun x => x.key == key.getD "") = some r := by
  have hbeq : (r.request_hash == compute_request_hash (reqJson req)) = false :=
    beq_eq_false_iff_ne.mpr hhash
  refine ⟨?_, rfl, rfl, hfind⟩
  unfold create_shipment check_idempotency
  rw [hkey]
  simp only [Bool.false_eq_true, if_false]
  rw [hfind]
  dsimp only
  rw [hbeq]
  simp only [Bool.false_eq_true, if_false]

theorem C3_idempotency_conflict_witness :
    create_shipment sampleReq (some "k1") "TRK100003" 10 dbStale =
      (.error ⟨409, "Idempotency key already used with different request data"⟩,
       { dbStale with idem := cleanExpired dbStale.idem 10 }) ∧
    ({ dbStale with idem := cleanExpired dbStale.idem 10 } : DB).shipments =
      dbStale.shipments ∧
    ({ dbStale with idem := cleanExpired dbStale.idem 10 } : DB).events =
      dbStale.events ∧
    ({ dbStale with idem := cleanExpired dbStale.idem 10 } : DB).idem.find?
      (fun x => x.key == (some "k1").getD "") =
      some ⟨"k1", "not-a-real-digest",
        ⟨9, 43, .FEDEX, .PENDING, "TRK100009", 5⟩, 5, 999999⟩ :=
  C3_idempotency_conflict sampleReq (some "k1") "TRK100003" 10 dbStale
    ⟨"k1", "not-a-real-digest", ⟨9, 43, .FEDEX, .PENDING, "TRK100009", 5⟩,
      5, 999999⟩
    rfl rfl
    (fun h => by
      have h64 := compute_request_hash_length (reqJson sampleReq)
      rw [← h] at h64
      exact absurd h64 (by decide))

/-- C2: after a successful keyed create, retrying the same payload under
the same key while the stored record is live (within the 24-hour window)
replays the stored response verbatim — same body, same 201 status — and
commits no new shipment or ledger event: exactly one shipment exists for
the payload's order reference. -/
theorem C2_idempotent_replay (req : CreateShipmentRequest)
    (key : Option String) (tn tn2 : String) (t1 t2 : Nat) (db0 : DB)
    (resp : CreateResp)
    (hkey : keyFalsy key = false)
    (h1 : (create_shipment req key tn t1 db0).1 = .ok (.created resp))
    (hlive : t2 ≤ t1 + 86400) :
    (create_shipment req key tn2 t2 (create_shipment req key tn t1 db0).2).1 =
      .ok (.replayed resp) ∧
    CreateResult.body (.replayed resp) = CreateResult.body (.created resp) ∧
    CreateResult.statusCode (.replayed resp) =
      CreateResult.statusCode (.created resp) ∧
    (create_shipment req key tn2 t2
        (create_shipment req key tn t1 db0).2).2.shipments =
      (create_shipment req key tn t1 db0).2.shipments ∧
    (create_shipment req key tn2 t2
        (create_shipment req key tn t1 db0).2).2.events =
      (create_shipment req key tn t1 db0).2.events ∧
    (create_shipment req key tn t1 db0).2.shipments.countP
      (fun s => s.order_id == req.order_id) = 1 := by
  have hinv := h1
  unfold create_shipment check_idempotency at hinv
  rw [hkey] at hinv
  simp only [Bool.false_eq_true, if_false] at hinv
  cases hfk : (cleanExpired db0.idem t1).find?
      (fun x => x.key == key.getD "") with
  | some r =>
    rw [hfk] at hinv
    dsimp only at hinv
    cases hb : (r.request_hash == compute_request_hash (reqJson req)) with
    | true => rw [hb] at hinv; simp at hinv
    | false => rw [hb] at hinv; simp at hinv
  | none =>
    rw [hfk] at hinv
    dsimp only at hinv
    cases hfd : db0.shipments.find? (fun s => s.order_id == req.order_id) with
    | some v => rw [hfd] at hinv; simp at hinv
    | none =>
      rw [hfd] at hinv
      dsimp only at hinv
      simp only [Except.ok.injEq, CreateResult.created.injEq] at hinv
      subst hinv
      have hdb1 : (create_shipment req key tn t1 db0).2 =
          { shipments := db0.shipments ++
              [⟨db0.nextShipmentId, req.order_id, req.carrier, .PENDING, tn,
                none, none, t1, t1⟩],
            events := db0.events ++
              [⟨db0.nextEventId, db0.nextShipmentId, .PENDING, none,
                some "Shipment created", t1⟩],
            idem := cleanExpired db0.idem t1 ++
              [⟨key.getD "", compute_request_hash (reqJson req),
                ⟨db0.nextShipmentId, req.order_id, req.carrier, .PENDING,
                 tn, t1⟩, t1, t1 + 86400⟩],
            nextShipmentId := db0.nextShipmentId + 1,
            nextEventId := db0.nextEventId + 1 } := by
        unfold create_shipment check_idempotency store_idempotency
        rw [hkey]
        simp only [Bool.false_eq_true, if_false]
        rw [hfk]
        dsimp only
        rw [hfd]
      have hclean : cleanExpired (cleanExpired db0.idem t1 ++
          [⟨key.getD "", compute_request_hash (reqJson req),
            ⟨db0.nextShipmentId, req.order_id, req.carrier, .PENDING,
             tn, t1⟩, t1, t1 + 86400⟩]) t2 =
          cleanExpired (cleanExpired db0.idem t1) t2 ++
          [⟨key.getD "", compute_request_hash (reqJson req),
            ⟨db0.nextShipmentId, req.order_id, req.carrier, .PENDING,
             tn, t1⟩, t1, t1 + 86400⟩] := by
        unfold cleanExpired
        rw [List.filter_append]
        congr 1
        simp [decide_eq_false (Nat.not_lt.mpr hlive)]
      have hnone2 : (cleanExpired (cleanExpired db0.idem t1) t2).find?
          (fun x => x.key == key.getD "") = none := by
        apply List.find?_eq_none.mpr
        intro x hx
        have hx0 : x ∈ cleanExpired db0.idem t1 :=
          (List.mem_filter.mp hx).1
        exact List.find?_eq_none.mp hfk x hx0
      have hsecond : create_shipment req key tn2 t2
          (create_shipment req key tn t1 db0).2 =
          (.ok (.replayed ⟨db0.nextShipmentId, req.order_id, req.carrier,
            .PENDING, tn, t1⟩),
           { shipments := db0.shipments ++
               [⟨db0.nextShipmentId, req.order_id, req.carrier, .PENDING, tn,
                 none, none, t1, t1⟩],
             events := db0.events ++
               [⟨db0.nextEventId, db0.nextShipmentId, .PENDING, none,
                 some "Shipment created", t1⟩],
             idem := cleanExpired (cleanExpired db0.idem t1) t2 ++
               [⟨key.getD "", compute_request_hash (reqJson req),
                 ⟨db0.nextShipmentId, req.order_id, req.carrier, .PENDING,
                  tn, t1⟩, t1, t1 + 86400⟩],
             nextShipmentId := db0.nextShipmentId + 1,
             nextEventId := db0.nextEventId + 1 }) := by
        rw [hdb1]
        unfold create_shipment check_idempotency
        rw [hkey]
        simp only [Bool.false_eq_true, if_false]
        rw [hclean, List.find?_append, hnone2]
        simp only [Option.none_or]
        rw [List.find?_cons_of_pos _ (by simp)]
        dsimp only
        rw [if_pos (by simp)]
      have hcnt : (db0.shipments ++
          [(⟨db0.nextShipmentId, req.order_id, req.carrier, .PENDING, tn,
            none, none, t1, t1⟩ : Shipment)]).countP
          (fun s => s.order_id == req.order_id) = 1 := by
        rw [List.countP_append]
        have h0 : db0.shipments.countP
            (fun s => s.order_id == req.order_id) = 0 :=
          List.countP_eq_zero.mpr (fun x hx => by
            simpa using List.find?_eq_none.mp hfd x hx)
        rw [h0]
        simp [List.countP_cons]
      refine ⟨?_, rfl, rfl, ?_, ?_, ?_⟩
      · rw [hsecond]
      · rw [hsecond, hdb1]
      · rw [hsecond, hdb1]
      · rw [hdb1]
        exact hcnt

theorem C2_idempotent_replay_witness :
    (create_shipment sampleReq (some "k2") "TRK100002" 20
        (create_shipment sampleReq (some "k2") "TRK100001" 10 DB.empty).2).1 =
      .ok (.replayed ⟨1, 42, .DHL, .PENDING, "TRK100001", 10⟩) ∧
    CreateResult.body (.replayed ⟨1, 42, .DHL, .PENDING, "TRK100001", 10⟩) =
      CreateResult.body (.created ⟨1, 42, .DHL, .PENDING, "TRK100001", 10⟩) ∧
    CreateResult.statusCode
        (.replayed ⟨1, 42, .DHL, .PENDING, "TRK100001", 10⟩) =
      CreateResult.statusCode
        (.created ⟨1, 42, .DHL, .PENDING, "TRK100001", 10⟩) ∧
    (create_shipment sampleReq (some "k2") "TRK100002" 20
        (create_shipment sampleReq (some "k2") "TRK100001" 10
          DB.empty).2).2.shipments =
      (create_shipment sampleReq (some "k2") "TRK100001" 10
        DB.empty).2.shipments ∧
    (create_shipment sampleReq (some "k2") "TRK100002" 20
        (create_shipment sampleReq (some "k2") "TRK100001" 10
          DB.empty).2).2.events =
      (create_shipment sampleReq (some "k2") "TRK100001" 10
        DB.empty).2.events ∧
    (create_shipment sampleReq (some "k2") "TRK100001" 10
        DB.empty).2.shipments.countP
      (fun s => s.order_id == sampleReq.order_id) = 1 :=
  C2_idempotent_replay sampleReq (some "k2") "TRK100001" "TRK100002" 10 20
    DB.empty ⟨1, 42, .DHL, .PENDING, "TRK100001", 10⟩ rfl rfl (by decide)

theorem sortByKey_pairwise (l : List (String × JsonVal)) :
    (sortByKey l).Pairwise (fun a b => decide (a.1 ≤ b.1) = true) :=
  @List.sorted_mergeSort (String × JsonVal)
    (fun a b => decide (a.1 ≤ b.1))
    (fun a b c hab hbc => by
      simp only [decide_eq_true_eq] at hab hbc ⊢
      exact le_trans hab hbc)
    (fun a b => by
      simpa [Bool.or_eq_true, decide_eq_true_eq] using le_total a.1 b.1)
    l

/-- Sorting by key is insensitive to the input ordering of an association
list with distinct keys. -/
theorem sortByKey_eq_of_perm (l1 l2 : List (String × JsonVal))
    (hperm : List.Perm l1 l2) (hnd : (l1.map Prod.fst).Nodup) :
    sortByKey l1 = sortByKey l2 := by
  have hperm1 : List.Perm (sortByKey l1) l1 := List.mergeSort_perm l1 _
  have hperm2 : List.Perm (sortByKey l2) l2 := List.mergeSort_perm l2 _
  have hp : List.Perm (sortByKey l1) (sortByKey l2) :=
    (hperm1.trans hperm).trans hperm2.symm
  have hstrict : ∀ l : List (String × JsonVal), (l.map Prod.fst).Nodup →
      (sortByKey l).Pairwise (fun a b => a.1 < b.1) := by
    intro l hl
    have hs := sortByKey_pairwise l
    have hmapnd : ((sortByKey l).map Prod.fst).Nodup :=
      ((List.mergeSort_perm l _).map Prod.fst).nodup_iff.mpr hl
    have hne : (sortByKey l).Pairwise (fun a b => a.1 ≠ b.1) :=
      List.pairwise_map.mp hmapnd
    exact (hs.and hne).imp (fun h =>
      lt_of_le_of_ne (by simpa using h.1) h.2)
  have hnd2 : (l2.map Prod.fst).Nodup := (hperm.map Prod.fst).nodup_iff.mp hnd
  haveI : IsAntisymm (String × JsonVal) (fun a b => a.1 < b.1) :=
    ⟨fun a b h1 h2 => absurd h1 (lt_asymm h2)⟩
  exact List.eq_of_perm_of_sorted hp (hstrict l1 hnd) (hstrict l2 hnd2)

/-- C8: the request fingerprint is computed over a canonical serialization,
so two payload dicts holding the same key-value pairs (distinct keys, any
field ordering) produce the identical fingerprint; and the fingerprint
function is deterministic (a pure function of the payload). -/
theorem C8_fingerprint_order_independent (l1 l2 : List (String × JsonVal))
    (hperm : List.Perm l1 l2) (hnd : (l1.map Prod.fst).Nodup) :
    compute_request_hash (.obj l1) = compute_request_hash (.obj l2) ∧
    ∀ d : JsonVal, compute_request_hash d = compute_request_hash d := by
  refine ⟨?_, fun d => rfl⟩
  have h := sortByKey_eq_of_perm l1 l2 hperm hnd
  unfold compute_request_hash
  congr 1
  show dumps (.obj l1) = dumps (.obj l2)
  rw [dumps, dumps, h]

theorem C8_fingerprint_order_independent_witness :
    compute_request_hash (.obj [("b", .num 1), ("a", .null)]) =
      compute_request_hash (.obj [("a", .null), ("b", .num 1)]) ∧
    ∀ d : JsonVal, compute_request_hash d = compute_request_hash d :=
  C8_fingerprint_order_independent
    [("b", .num 1), ("a", .null)] [("a", .null), ("b", .num 1)]
    (List.Perm.swap ("a", JsonVal.null) ("b", JsonVal.num 1) [])
    (by decide)

/-- Precise shape of a create call's committed state: either unchanged
tables (replay or error path) or exactly one shipment row and one ledger
row appended with fresh primary keys. -/
theorem create_state_cases (req : CreateShipmentRequest) (key : Option String)
    (tn : String) (now : Nat) (db : DB) :
    ((create_shipment req key tn now db).2.shipments = db.shipments ∧
     (create_shipment req key tn now db).2.events = db.events ∧
     (create_shipment req key tn now db).2.nextShipmentId =
       db.nextShipmentId ∧
     (create_shipment req key tn now db).2.nextEventId = db.nextEventId) ∨
    ((create_shipment req key tn now db).2.shipments = db.shipments ++
       [⟨db.nextShipmentId, req.order_id, req.carrier, .PENDING, tn, none,
         none, now, now⟩] ∧
     (create_shipment req key tn now db).2.events = db.events ++
       [⟨db.nextEventId, db.nextShipmentId, .PENDING, none,
         some "Shipment created", now⟩] ∧
     (create_shipment req key tn now db).2.nextShipmentId =
       db.nextShipmentId + 1 ∧
     (create_shipment req key tn now db).2.nextEventId =
       db.nextEventId + 1) := by
  have hst := check_idempotency_state db key (reqJson req) now
  unfold create_shipment
  cases hc : check_idempotency db key (reqJson req) now with
  | mk r1 db1 =>
    rw [hc] at hst
    have hs1 : db1.shipments = db.shipments := hst.1
    have he1 : db1.events = db.events := hst.2.1
    have hn1 : db1.nextShipmentId = db.nextShipmentId := hst.2.2.1
    have hn2 : db1.nextEventId = db.nextEventId := hst.2.2.2
    cases r1 with
    | error e => exact Or.inl ⟨hs1, he1, hn1, hn2⟩
    | ok o =>
      cases o with
      | some cached => exact Or.inl ⟨hs1, he1, hn1, hn2⟩
      | none =>
        dsimp only
        cases hf : db1.shipments.find?
            (fun s => s.order_id == req.order_id) with
        | some v => exact Or.inl ⟨hs1, he1, hn1, hn2⟩
        | none =>
          right
          have hsp := store_idempotency_state
            ({ db1 with
               shipments := db1.shipments ++
                 [⟨db1.nextShipmentId, req.order_id, req.carrier, .PENDING,
                   tn, none, none, now, now⟩],
               events := db1.events ++
                 [⟨db1.nextEventId, db1.nextShipmentId, .PENDING, none,
                   some "Shipment created", now⟩],
               nextShipmentId := db1.nextShipmentId + 1,
               nextEventId := db1.nextEventId + 1 }) key (reqJson req)
            (⟨db1.nextShipmentId, req.order_id, req.carrier, .PENDING, tn,
              now⟩) now
          refine ⟨?_, ?_, ?_, ?_⟩
          · rw [hsp.1]
            dsimp only
            rw [hs1, hn1]
          · rw [hsp.2]
            dsimp only
            rw [he1, hn1, hn2]
          · show (store_idempotency _ key (reqJson req) _ now).nextShipmentId =
              db.nextShipmentId + 1
            unfold store_idempotency
            split <;> (dsimp only; rw [hn1])
          · show (store_idempotency _ key (reqJson req) _ now).nextEventId =
              db.nextEventId + 1
            unfold store_idempotency
            split <;> (dsimp only; rw [hn2])

theorem storeInv_mono {t t1 : Nat} {db : DB} (hle : t ≤ t1)
    (h : StoreInv t db) : StoreInv t1 db :=
  ⟨h.sid_lt, h.esid_lt, h.track_nodup,
   fun e he => le_trans (h.etime_le e he) hle, h.esorted, h.first_pending⟩

theorem storeInv_empty (t : Nat) : StoreInv t DB.empty := by
  constructor <;> simp [DB.empty, eventsFor]

theorem storeInv_create (req : CreateShipmentRequest) (key : Option String)
    (tn : String) {t t1 : Nat} {db : DB} (hle : t ≤ t1)
    (hInv : StoreInv t db) (hfresh : trackingFresh db tn = true) :
    StoreInv t1 (create_shipment req key tn t1 db).2 := by
  have hfr : ∀ y ∈ db.shipments, y.tracking_no ≠ tn := by
    intro y hy
    have := List.all_eq_true.mp hfresh y hy
    simpa using this
  rcases create_state_cases req key tn t1 db with
    ⟨hs, he, hn1, hn2⟩ | ⟨hs, he, hn1, hn2⟩
  · constructor
    · intro x hx
      rw [hs] at hx
      rw [hn1]
      exact hInv.sid_lt x hx
    · intro x hx
      rw [he] at hx
      rw [hn1]
      exact hInv.esid_lt x hx
    · rw [hs]
      exact hInv.track_nodup
    · intro x hx
      rw [he] at hx
      exact le_trans (hInv.etime_le x hx) hle
    · rw [he]
      exact hInv.esorted
    · intro x hx
      rw [hs] at hx
      simp only [eventsFor]
      rw [he]
      exact hInv.first_pending x hx
  · constructor
    · intro x hx
      rw [hs] at hx
      rw [hn1]
      rcases List.mem_append.mp hx with hx1 | hx2
      · exact Nat.lt_succ_of_lt (hInv.sid_lt x hx1)
      · rw [List.mem_singleton.mp hx2]
        exact Nat.lt_succ_self _
    · intro x hx
      rw [he] at hx
      rw [hn1]
      rcases List.mem_append.mp hx with hx1 | hx2
      · exact Nat.lt_succ_of_lt (hInv.esid_lt x hx1)
      · rw [List.mem_singleton.mp hx2]
        exact Nat.lt_succ_self _
    · rw [hs, List.map_append]
      refine hInv.track_nodup.append (List.nodup_singleton _) ?_
      intro a ha hb
      obtain ⟨y, hy, rfl⟩ := List.mem_map.mp ha
      have ha2 : y.tracking_no = tn := by simpa using hb
      exact hfr y hy ha2
    · intro x hx
      rw [he] at hx
      rcases List.mem_append.mp hx with hx1 | hx2
      · exact le_trans (hInv.etime_le x hx1) hle
      · rw [List.mem_singleton.mp hx2]
    · rw [he]
      refine List.pairwise_append.mpr
        ⟨hInv.esorted, List.pairwise_singleton _ _, ?_⟩
      intro a ha b hb
      rw [List.mem_singleton.mp hb]
      exact le_trans (hInv.etime_le a ha) hle
    · intro x hx
      rw [hs] at hx
      simp only [eventsFor]
      rw [he, List.filter_append]
      rcases List.mem_append.mp hx with hx1 | hx2
      · have hxid : x.shipment_id < db.nextShipmentId := hInv.sid_lt x hx1
        have hfl : List.filter
            (fun ev => ev.shipment_id == x.shipment_id)
            ([⟨db.nextEventId, db.nextShipmentId, .PENDING, none,
              some "Shipment created", t1⟩] : List ShipmentEvent) = [] := by
          simp only [List.filter_eq_nil_iff, List.mem_singleton]
          intro a ha
          rw [ha]
          simp
          omega
        rw [hfl, List.append_nil]
        have := hInv.first_pending x hx1
        simpa [eventsFor] using this
      · rw [List.mem_singleton.mp hx2]
        have h1 : db.events.filter
            (fun ev => ev.shipment_id == db.nextShipmentId) = [] := by
          simp only [List.filter_eq_nil_iff]
          intro a ha
          have := hInv.esid_lt a ha
          simp
          omega
        dsimp only
        rw [h1]
        simp

/-- Invariant preservation for the shared mutation shape of update-status
and cancel: replace the found row by one with the same primary key and
tracking number, and append one ledger event for it stamped `t1`. -/
theorem storeInv_mutate {t t1 : Nat} {db : DB} (hle : t ≤ t1)
    (hInv : StoreInv t db) (sid : Nat) (s : Shipment)
    (hf : db.shipments.find? (fun x => x.shipment_id == sid) = some s)
    (v : Shipment) (hvid : v.shipment_id = s.shipment_id)
    (hvtr : v.tracking_no = s.tracking_no)
    (e : ShipmentEvent) (heid : e.shipment_id = sid) (het : e.created_at = t1) :
    StoreInv t1 { db with shipments := setShipment db.shipments sid v,
                          events := db.events ++ [e],
                          nextEventId := db.nextEventId + 1 } := by
  obtain ⟨l1, l2, hdec, hset, hall⟩ := setShipment_decomp v hf
  have hsid : s.shipment_id = sid := by simpa using List.find?_some hf
  have hmem : s ∈ db.shipments := List.mem_of_find?_eq_some hf
  have hmemv : ∀ x, x ∈ setShipment db.shipments sid v →
      x = v ∨ x ∈ db.shipments := by
    intro x hx
    rw [hset] at hx
    rcases List.mem_append.mp hx with hx1 | hx2
    · right
      rw [hdec]
      exact List.mem_append.mpr (Or.inl hx1)
    · rcases List.mem_cons.mp hx2 with rfl | hx3
      · exact Or.inl rfl
      · right
        rw [hdec]
        exact List.mem_append.mpr (Or.inr (List.mem_cons.mpr (Or.inr hx3)))
  constructor
  · intro x hx
    rcases hmemv x hx with rfl | hold
    · rw [hvid]
      exact hInv.sid_lt s hmem
    · exact hInv.sid_lt x hold
  · intro x hx
    rcases List.mem_append.mp hx with hx1 | hx2
    · exact hInv.esid_lt x hx1
    · rw [List.mem_singleton.mp hx2, heid, ← hsid]
      exact hInv.sid_lt s hmem
  · show ((setShipment db.shipments sid v).map Shipment.tracking_no).Nodup
    rw [map_setShipment Shipment.tracking_no v hf hvtr]
    exact hInv.track_nodup
  · intro x hx
    rcases List.mem_append.mp hx with hx1 | hx2
    · exact le_trans (hInv.etime_le x hx1) hle
    · rw [List.mem_singleton.mp hx2, het]
  · refine List.pairwise_append.mpr
      ⟨hInv.esorted, List.pairwise_singleton _ _, ?_⟩
    intro a ha b hb
    rw [List.mem_singleton.mp hb, het]
    exact le_trans (hInv.etime_le a ha) hle
  · intro x hx
    have hexists : ∃ y ∈ db.shipments, y.shipment_id = x.shipment_id := by
      rcases hmemv x hx with rfl | hold
      · exact ⟨s, hmem, hvid.symm⟩
      · exact ⟨x, hold, rfl⟩
    obtain ⟨y, hy, hyid⟩ := hexists
    have hfp := hInv.first_pending y hy
    rw [hyid] at hfp
    simp only [eventsFor] at hfp ⊢
    rw [List.filter_append]
    cases hh : db.events.filter
        (fun ev => ev.shipment_id == x.shipment_id) with
    | nil =>
      rw [hh] at hfp
      simp at hfp
    | cons e0 rest =>
      rw [hh] at hfp
      simpa using hfp

theorem storeInv_update (sid : Nat) (req : UpdateStatusRequest)
    {t t1 : Nat} {db : DB} (hle : t ≤ t1) (hInv : StoreInv t db) :
    StoreInv t1 (update_shipment_status sid req t1 db).2 := by
  cases hf : db.shipments.find? (fun x => x.shipment_id == sid) with
  | none =>
    unfold update_shipment_status
    rw [hf]
    exact storeInv_mono hle hInv
  | some s =>
    unfold update_shipment_status
    rw [hf]
    dsimp only
    refine storeInv_mutate hle hInv sid s hf _ ?_ ?_ _ rfl rfl
    · split
      · rfl
      · split <;> rfl
    · split
      · rfl
      · split <;> rfl

theorem storeInv_cancel (sid : Nat) (ok : Bool) {t t1 : Nat} {db : DB}
    (hle : t ≤ t1) (hInv : StoreInv t db) :
    StoreInv t1 (cancel_shipment sid ok t1 db).2.1 := by
  cases hf : db.shipments.find? (fun x => x.shipment_id == sid) with
  | none =>
    unfold cancel_shipment
    rw [hf]
    exact storeInv_mono hle hInv
  | some s =>
    unfold cancel_shipment
    rw [hf]
    dsimp only
    by_cases hterm : s.status = .DELIVERED ∨ s.status = .CANCELLED
    · rw [if_pos hterm]
      exact storeInv_mono hle hInv
    · rw [if_neg hterm]
      exact storeInv_mutate hle hInv sid s hf
        { s with status := ShipmentStatus.CANCELLED, updated_at := t1 }
        rfl rfl
        ⟨db.nextEventId, sid, .CANCELLED, none, some "Shipment cancelled", t1⟩
        rfl rfl

/-- Every reachable state satisfies the store invariants. -/
theorem reach_storeInv {t : Nat} {db : DB} (h : Reach t db) :
    StoreInv t db := by
  induction h with
  | init t0 => exact storeInv_empty t0
  | create req key tn hr hle hfresh ih => exact storeInv_create req key tn hle ih hfresh
  | update sid req hr hle ih => exact storeInv_update sid req hle ih
  | cancel sid ok hr hle ih => exact storeInv_cancel sid ok hle ih

/-- With pairwise-distinct keys, `.filter(...).first()` on the key of a
stored row returns that row. -/
theorem find?_eq_self_of_nodup_key {α β : Type} [BEq β] [LawfulBEq β]
    (f : α → β) (l : List α) (hnd : (l.map f).Nodup) (s : α) (hs : s ∈ l) :
    l.find? (fun x => f x == f s) = some s := by
  induction l with
  | nil => cases hs
  | cons x xs ih =>
    rcases List.mem_cons.mp hs with rfl | hmem
    · rw [List.find?_cons_of_pos _ (by simp)]
    · have hx : (f x == f s) = false := by
        have hfs : f s ∈ xs.map f := List.mem_map_of_mem f hmem
        have hnx : f x ∉ xs.map f := (List.nodup_cons.mp hnd).1
        apply beq_eq_false_iff_ne.mpr
        intro hcontra
        exact hnx (hcontra ▸ hfs)
      rw [List.find?_cons_of_neg _ (by simp [hx])]
      exact ih (List.nodup_cons.mp hnd).2 hmem

/-- On an invariant-satisfying state, tracking a stored shipment's code
returns that shipment and its ledger in insertion order (the `ORDER BY
created_at ASC` sort leaves the already-sorted ledger unchanged). -/
theorem track_shipment_ok {t : Nat} {db : DB} (hInv : StoreInv t db)
    (s : Shipment) (hs : s ∈ db.shipments) :
    track_shipment s.tracking_no db =
      .ok ⟨shipmentResp s, (eventsFor db s.shipment_id).map (fun e =>
        ⟨e.event_id, e.status, e.location, e.description, e.created_at⟩)⟩ := by
  unfold track_shipment
  rw [find?_eq_self_of_nodup_key Shipment.tracking_no db.shipments
    hInv.track_nodup s hs]
  dsimp only
  have hsorted : (db.events.filter
      (fun e => e.shipment_id == s.shipment_id)).Pairwise
      (fun a b => decide (a.created_at ≤ b.created_at) = true) := by
    have hsub : List.Sublist
        (db.events.filter (fun e => e.shipment_id == s.shipment_id))
        db.events := List.filter_sublist db.events
    exact (hInv.esorted.sublist hsub).imp (fun h => by simpa using h)
  rw [List.mergeSort_of_sorted hsorted]
  rfl

/-- C7: on every reachable state, tracking an existing shipment's code
returns that shipment together with its events in non-decreasing
`created_at` order, and the first returned event's status is `PENDING` —
the initial status every shipment is created with; an unknown tracking
code fails with `NotFound` (404). -/
theorem C7_tracking_query (t : Nat) (db : DB) (hr : Reach t db) :
    (∀ s ∈ db.shipments, ∃ evs,
      track_shipment s.tracking_no db = .ok ⟨shipmentResp s, evs⟩ ∧
      evs.Pairwise (fun a b => a.created_at ≤ b.created_at) ∧
      evs.head?.map TrackingEvent.status = some .PENDING) ∧
    (∀ tn, db.shipments.find? (fun x => x.tracking_no == tn) = none →
      track_shipment tn db = .error ⟨404, "Shipment not found"⟩) := by
  have hInv := reach_storeInv hr
  constructor
  · intro s hs
    refine ⟨_, track_shipment_ok hInv s hs, ?_, ?_⟩
    · apply List.pairwise_map.mpr
      have hsub : List.Sublist (eventsFor db s.shipment_id) db.events :=
        List.filter_sublist db.events
      exact (hInv.esorted.sublist hsub).imp (fun h => h)
    · have hfp := hInv.first_pending s hs
      rw [List.head?_map]
      cases hh : (eventsFor db s.shipment_id).head? with
      | none =>
        rw [hh] at hfp
        simp at hfp
      | some e0 =>
        rw [hh] at hfp
        simpa using hfp
  · intro tn hfn
    unfold track_shipment
    rw [hfn]

theorem C7_tracking_query_witness :
    ∃ evs,
      track_shipment "TRK100001" dbOne =
        .ok ⟨shipmentResp ⟨1, 42, .DHL, .PENDING, "TRK100001", none, none,
          10, 10⟩, evs⟩ ∧
      evs.Pairwise (fun a b => a.created_at ≤ b.created_at) ∧
      evs.head?.map TrackingEvent.status = some .PENDING :=
  (C7_tracking_query 10 dbOne
    (Reach.create sampleReq none "TRK100001" (Reach.init 0)
      (by omega) rfl)).1
    ⟨1, 42, .DHL, .PENDING, "TRK100001", none, none, 10, 10⟩ (by decide)
